import Mathlib

/-!
Verification development for the mDNS manager program (`src/main.py`).

The program is a small glue script around the `zeroconf` library:
a JSON configuration loader (`load_config`), a `MDNSManager` class whose
`_sched_handler` unregisters and re-registers a service on a `sched.scheduler`
timer, and a `main` entry point that builds the advertised service name.

The shallow embedding below models:
  * JSON values (`Json`) with rational numbers standing for JSON numbers;
  * the `MDNSConfig` dataclass. Python dataclasses perform no runtime type
    checking, so every field holds an arbitrary `Json` value and
    `MDNSConfig(**kwargs)` only rejects unknown keyword names (a `TypeError`);
  * `load_config`, over an abstract one-file filesystem
    `Option (Option Json)`: `none` means the file is absent
    (`FileNotFoundError`), `some none` a file whose text is not valid JSON
    (`json.JSONDecodeError`), `some (some j)` a file whose text parses to `j`.
    File writes are modelled at the JSON-value level: `json.dumps` of a value
    is the value itself;
  * the scheduler: `sched.scheduler` as a queue of timed events popped in
    (time, priority) order, `_sched_handler`, `run_sched` and `close` as
    transformers of a `RunState` that records the trace of calls made on the
    `zeroconf` responder handle. Whether a responder call raises is an
    environment choice, modelled by an oracle indexed by the call count.
-/

/-- JSON values. JSON numbers are modelled as rationals. -/
inductive Json where
  | null : Json
  | bool (b : Bool) : Json
  | num (q : ℚ) : Json
  | str (s : String) : Json
  | arr (elems : List Json) : Json
  | obj (fields : List (String × Json)) : Json

/-- Python truthiness of a JSON-decoded value, as used by
`if not mdns_config.name:` in `main`. -/
def pyTruthy : Json → Bool
  | Json.null => false
  | Json.bool b => b
  | Json.num q => q != 0
  | Json.str s => s != ""
  | Json.arr elems => !elems.isEmpty
  | Json.obj fields => !fields.isEmpty

/-- Python `str()` of a JSON-decoded value, as used by f-string
interpolation in `main`. Only the string case is exercised by the claims;
containers are abstracted. -/
def pyStr : Json → String
  | Json.null => "None"
  | Json.bool b => if b then "True" else "False"
  | Json.num q => if q.den == 1 then toString q.num else toString q
  | Json.str s => s
  | Json.arr _ => "<list>"
  | Json.obj _ => "<dict>"

/-- The `MDNSConfig` dataclass of `src/main.py`. Python dataclasses do not
check field types at runtime, so each field holds an arbitrary JSON-decoded
value; the declared defaults are the dataclass defaults
(`type="_http._tcp.local."`, `name=""`, `port=8080`, `properties=dict()`,
`timeout=60`). -/
structure MDNSConfig where
  type : Json := Json.str "_http._tcp.local."
  name : Json := Json.str ""
  port : Json := Json.num 8080
  properties : Json := Json.obj []
  timeout : Json := Json.num 60

/-- The declared field names of the `MDNSConfig` dataclass. -/
def knownKeys : List String := ["type", "name", "port", "properties", "timeout"]

/-- Last-wins lookup in a JSON object, matching the dict produced by
`json.loads` (later duplicate keys override earlier ones). -/
def lookupLast (m : List (String × Json)) (k : String) : Option Json :=
  ((m.filter (fun p => p.1 == k)).getLast?).map Prod.snd

/-- Python `MDNSConfig(**m)` for a dict `m`: raises `TypeError` on any
unexpected keyword name; otherwise each declared field takes the supplied
value verbatim (no type checking) or its declared default when absent. -/
def mkMDNSConfig (m : List (String × Json)) : Except Unit MDNSConfig :=
  if m.all (fun p => knownKeys.contains p.1) then
    Except.ok
      { type := (lookupLast m "type").getD (Json.str "_http._tcp.local.")
        name := (lookupLast m "name").getD (Json.str "")
        port := (lookupLast m "port").getD (Json.num 8080)
        properties := (lookupLast m "properties").getD (Json.obj [])
        timeout := (lookupLast m "timeout").getD (Json.num 60) }
  else
    Except.error ()

/-- Python `MDNSConfig(**x)` for an arbitrary decoded JSON value `x`:
`**` requires a mapping, so any non-object raises `TypeError`. -/
def applyKwargs : Json → Except Unit MDNSConfig
  | Json.obj m => mkMDNSConfig m
  | _ => Except.error ()

/-- The dict produced by `dataclasses.asdict` on an `MDNSConfig`, as the JSON
value `json.dumps` would serialize. -/
def asdict (c : MDNSConfig) : Json :=
  Json.obj
    [("type", c.type), ("name", c.name), ("port", c.port),
     ("properties", c.properties), ("timeout", c.timeout)]

/-- Result of `load_config`: the returned config, the filesystem after the
call (same one-file abstraction as the input), and whether a
`logger.warning` was emitted. -/
structure LoadResult where
  config : MDNSConfig
  fs : Option (Option Json)
  warned : Bool

/-- The `load_config` function of `src/main.py` over the abstract one-file
filesystem. `none`: `read_text` raises `FileNotFoundError`, the default
config is created, serialized and written, with a warning. `some none`: the
file's text fails `json.loads`, defaults are used with a warning and the file
is untouched. `some (some j)`: the text parses to `j`; `MDNSConfig(**j)`
either succeeds (config taken verbatim) or raises `TypeError` (defaults,
warning); the file is untouched either way. -/
def load_config (fs : Option (Option Json)) : LoadResult :=
  match fs with
  | none =>
      let config : MDNSConfig := {}
      { config := config, fs := some (some (asdict config)), warned := true }
  | some none =>
      { config := {}, fs := some none, warned := true }
  | some (some j) =>
      match applyKwargs j with
      | Except.ok c => { config := c, fs := some (some j), warned := false }
      | Except.error _ => { config := {}, fs := some (some j), warned := true }

/-- The instance-name computation of `main`:
`service_name = mdns_config.name`, replaced by the hostname when
`not mdns_config.name` is true. -/
def serviceNameOf (c : MDNSConfig) (hostname : String) : Json :=
  if pyTruthy c.name then c.name else Json.str hostname

/-- The full registered name of `main`, built by the f-string
interpolating `service_name`, a dot, and `mdns_config.type`. -/
def registeredName (c : MDNSConfig) (hostname : String) : String :=
  pyStr (serviceNameOf c hostname) ++ "." ++ pyStr c.type

/-- Scenario input from the spec: a config file holding
`port = 9999, timeout = 5`. -/
def scenarioFs : Option (Option Json) :=
  some (some (Json.obj [("port", Json.num 9999), ("timeout", Json.num 5)]))

/-- The config loaded from `scenarioFs`. -/
def scenarioConfig : MDNSConfig := (load_config scenarioFs).config

/-- C5: given a missing config file, `load_config` returns the all-default
configuration and leaves behind a newly written config file containing
exactly those defaults serialized as JSON. -/
theorem load_config_missing_file :
    (load_config none).config = ({} : MDNSConfig) ∧
    (load_config none).fs = some (some (asdict ({} : MDNSConfig))) ∧
    asdict ({} : MDNSConfig) =
      Json.obj
        [("type", Json.str "_http._tcp.local."), ("name", Json.str ""),
         ("port", Json.num 8080), ("properties", Json.obj []),
         ("timeout", Json.num 60)] := by
  refine ⟨rfl, rfl, rfl⟩

/-- C10: when the config file exists — whatever its contents — `load_config`
leaves the filesystem unchanged; the only case in which it writes is
file-not-found, where it writes the serialized defaults. -/
theorem load_config_frame (content : Option Json) :
    (load_config (some content)).fs = some content ∧
    (load_config none).fs = some (some (asdict ({} : MDNSConfig))) := by
  refine ⟨?_, rfl⟩
  match content with
  | none => rfl
  | some j =>
      simp only [load_config]
      cases applyKwargs j <;> rfl

/-- A call made on the `zeroconf` responder handle. -/
inductive Call where
  | unregisterCall : Call
  | registerCall : Call
  | closeCall : Call
deriving DecidableEq, Repr

/-- An event queued in `sched.scheduler`: an absolute due time and a
priority. The only action ever entered is `_sched_handler`, so the action is
implicit. -/
structure SchedEvent where
  time : ℚ
  priority : Nat
deriving DecidableEq, Repr

/-- State of a running `MDNSManager`: the scheduler clock, the scheduler's
event queue, the trace of responder calls so far (each stamped with the clock
at the call), the number of register/unregister calls so far (index into the
failure oracle), and whether an uncaught exception has propagated. -/
structure RunState where
  now : ℚ
  queue : List SchedEvent
  trace : List (ℚ × Call)
  calls : Nat
  raised : Bool
deriving DecidableEq, Repr

/-- Pop the earliest event of the scheduler queue, ordering by
(time, priority) as `sched.scheduler`'s heap does. -/
def popMin : List SchedEvent → Option (SchedEvent × List SchedEvent)
  | [] => none
  | e :: rest =>
      match popMin rest with
      | none => some (e, rest)
      | some (m, rest2) =>
          if e.time < m.time ∨ (e.time = m.time ∧ e.priority ≤ m.priority) then
            some (e, rest)
          else
            some (m, e :: rest2)

/-- The scheduler's `enter(delay, priority, action)`: queue an event due
`delay` after the current clock. -/
def enter (delay : ℚ) (priority : Nat) (s : RunState) : RunState :=
  { s with queue := s.queue ++ [⟨s.now + delay, priority⟩] }

/-- The `MDNSManager.unregister` method: one `zeroconf.unregister_service`
call. The oracle `fail` says whether this (the `s.calls`-th) responder call
raises; the call is recorded in the trace either way. -/
def unregister (fail : Nat → Bool) (s : RunState) : RunState :=
  { s with
      trace := s.trace ++ [(s.now, Call.unregisterCall)]
      calls := s.calls + 1
      raised := s.raised || fail s.calls }

/-- The `MDNSManager.register` method: one `zeroconf.register_service` call,
with the same failure-oracle convention as `unregister`. -/
def register (fail : Nat → Bool) (s : RunState) : RunState :=
  { s with
      trace := s.trace ++ [(s.now, Call.registerCall)]
      calls := s.calls + 1
      raised := s.raised || fail s.calls }

/-- The `MDNSManager._sched_handler` method: `unregister()`, then
`register()`, then `enter(sched_timeout, 1, _sched_handler)`. There is no
exception handling in the source: if a call raises, the rest of the body —
including the `enter` that would schedule the next cycle — does not run. -/
def schedHandler (timeout : ℚ) (fail : Nat → Bool) (s : RunState) : RunState :=
  let s1 := unregister fail s
  if s1.raised then s1
  else
    let s2 := register fail s1
    if s2.raised then s2
    else enter timeout 1 s2

/-- The `sched.scheduler.run` loop, fuel-bounded: while the queue is
nonempty, pop the earliest event, sleep until its due time, and run
`_sched_handler`; an exception propagating out of the handler propagates out
of `run` and ends the loop. -/
def schedRun (timeout : ℚ) (fail : Nat → Bool) : Nat → RunState → RunState
  | 0, s => s
  | Nat.succ n, s =>
      if s.raised then s
      else
        match popMin s.queue with
        | none => s
        | some (e, rest) =>
            schedRun timeout fail n
              (schedHandler timeout fail
                { s with now := max s.now e.time, queue := rest })

/-- The state of a freshly constructed `MDNSManager`: clock at 0, empty
scheduler queue, no responder calls yet. -/
def initState : RunState :=
  { now := 0, queue := [], trace := [], calls := 0, raised := false }

/-- The `MDNSManager.run_sched` method: `enter(1, 0, _sched_handler)`
followed by `run()`, fuel-bounded. -/
def run_sched (timeout : ℚ) (fail : Nat → Bool) (fuel : Nat) : RunState :=
  schedRun timeout fail fuel (enter 1 0 initState)

/-- The `MDNSManager.close` method: a single `zeroconf.close()` call. It
does not touch the scheduler queue. -/
def MDNSManager.close (s : RunState) : RunState :=
  { s with trace := s.trace ++ [(s.now, Call.closeCall)] }

/-- Popping a singleton queue yields its event and an empty queue. -/
theorem popMin_singleton (e : SchedEvent) : popMin [e] = some (e, []) := rfl

/-- A raised exception ends `schedRun` immediately, whatever the fuel. -/
theorem schedRun_raised (t : ℚ) (fail : Nat → Bool) (n : Nat) (s : RunState)
    (h : s.raised = true) : schedRun t fail n s = s := by
  cases n with
  | zero => rfl
  | succ n => simp [schedRun, h]

/-- One handler invocation only appends to the trace. -/
theorem schedHandler_trace_mono (t : ℚ) (fail : Nat → Bool) (s : RunState) :
    ∃ tl, (schedHandler t fail s).trace = s.trace ++ tl := by
  unfold schedHandler unregister register enter
  dsimp only
  split
  · exact ⟨[(s.now, Call.unregisterCall)], rfl⟩
  · split
    · exact ⟨[(s.now, Call.unregisterCall), (s.now, Call.registerCall)], by simp⟩
    · exact ⟨[(s.now, Call.unregisterCall), (s.now, Call.registerCall)], by simp⟩

/-- The scheduler loop only appends to the trace. -/
theorem schedRun_trace_mono (t : ℚ) (fail : Nat → Bool) :
    ∀ (n : Nat) (s : RunState), ∃ tl, (schedRun t fail n s).trace = s.trace ++ tl := by
  intro n
  induction n with
  | zero => exact fun s => ⟨[], by simp [schedRun]⟩
  | succ n ih =>
      intro s
      by_cases hr : s.raised = true
      · exact ⟨[], by simp [schedRun, hr]⟩
      · simp only [Bool.not_eq_true] at hr
        cases hpop : popMin s.queue with
        | none => exact ⟨[], by simp [schedRun, hr, hpop]⟩
        | some pr =>
            obtain ⟨e, rest⟩ := pr
            have hstep : schedRun t fail (n + 1) s =
                schedRun t fail n
                  (schedHandler t fail
                    { s with now := max s.now e.time, queue := rest }) := by
              simp [schedRun, hr, hpop]
            obtain ⟨d1, hd1⟩ := schedHandler_trace_mono t fail
              { s with now := max s.now e.time, queue := rest }
            obtain ⟨d2, hd2⟩ := ih
              (schedHandler t fail { s with now := max s.now e.time, queue := rest })
            refine ⟨d1 ++ d2, ?_⟩
            rw [hstep, hd2, hd1]
            simp

/-- With no failures, running the loop `n` times from a one-event queue
appends exactly `n` unregister-register pairs to the call trace. -/
theorem schedRun_noFail_calls (t : ℚ) :
    ∀ (n : Nat) (s : RunState) (e : SchedEvent),
      s.queue = [e] → s.raised = false →
      (schedRun t (fun _ => false) n s).trace.map Prod.snd =
        s.trace.map Prod.snd ++
          (List.replicate n [Call.unregisterCall, Call.registerCall]).flatten := by
  intro n
  induction n with
  | zero => intro s e hq hr; simp [schedRun]
  | succ n ih =>
      intro s e hq hr
      have hstep :
          schedRun t (fun _ => false) (n + 1) s =
            schedRun t (fun _ => false) n
              (schedHandler t (fun _ => false)
                { s with now := max s.now e.time, queue := [] }) := by
        simp [schedRun, hr, hq, popMin_singleton]
      have hhandler :
          schedHandler t (fun _ => false)
              { s with now := max s.now e.time, queue := [] } =
            { s with
                now := max s.now e.time
                queue := [⟨max s.now e.time + t, 1⟩]
                trace := s.trace ++
                  [(max s.now e.time, Call.unregisterCall),
                   (max s.now e.time, Call.registerCall)]
                calls := s.calls + 2 } := by
        simp [schedHandler, unregister, register, enter, hr]
      rw [hstep, hhandler,
        ih _ ⟨max s.now e.time + t, 1⟩ rfl (by simp [hr])]
      simp [List.replicate_succ]

/-- C3: driving the scheduler for `n` cycles with no failures produces
exactly `n` unregister calls and `n` register calls, strictly alternating,
each unregister immediately followed by its register; the trace is sequential,
so cycles never overlap. -/
theorem refresh_cycle_alternation (t : ℚ) (n : Nat) :
    (run_sched t (fun _ => false) n).trace.map Prod.snd =
      (List.replicate n [Call.unregisterCall, Call.registerCall]).flatten := by
  have h := schedRun_noFail_calls t n (enter 1 0 initState) ⟨(0 : ℚ) + 1, 0⟩ rfl rfl
  simpa [run_sched] using h

/-- C1 (amended): `_sched_handler` has no exception handling, so when the
first responder call raises, the `enter` scheduling the next cycle never
runs: the loop ends with the exception propagating, an empty queue, and no
further cycles attempted, however much fuel remains. -/
theorem sched_failure_stops_scheduler (t : ℚ) (fail : Nat → Bool) (n : Nat)
    (hf : fail 0 = true) (hn : 1 ≤ n) :
    (run_sched t fail n).raised = true ∧
    (run_sched t fail n).queue = [] ∧
    (run_sched t fail n).trace.map Prod.snd = [Call.unregisterCall] := by
  obtain ⟨m, rfl⟩ : ∃ m, n = m + 1 := ⟨n - 1, by omega⟩
  have h1 : run_sched t fail (m + 1) =
      schedRun t fail m
        { now := max (0 : ℚ) (0 + 1), queue := [],
          trace := [(max (0 : ℚ) (0 + 1), Call.unregisterCall)],
          calls := 1, raised := true } := by
    simp [run_sched, schedRun, enter, initState, popMin_singleton, schedHandler,
      unregister, register, hf]
  rw [h1, schedRun_raised _ _ _ _ rfl]
  exact ⟨rfl, rfl, rfl⟩

/-- Witness for `sched_failure_stops_scheduler`: the oracle failing the very
first responder call, one unit of fuel. -/
theorem sched_failure_stops_scheduler_w :
    ((fun c : Nat => c == 0) 0 = true) ∧ 1 ≤ 1 ∧
    ((run_sched 60 (fun c => c == 0) 1).raised = true ∧
     (run_sched 60 (fun c => c == 0) 1).queue = [] ∧
     (run_sched 60 (fun c => c == 0) 1).trace.map Prod.snd =
       [Call.unregisterCall]) :=
  ⟨rfl, le_refl 1, sched_failure_stops_scheduler 60 (fun c => c == 0) 1 rfl (le_refl 1)⟩

/-- C1 counterexample: with the first `unregister` raising, even with fuel
for three cycles the scheduler queue is left empty — the next cycle was
never scheduled — and no further responder calls are attempted, contradicting
"the next cycle is still scheduled, and subsequent cycles are still
attempted". -/
theorem sched_failure_cex :
    (run_sched 60 (fun c => c == 0) 3).queue = [] ∧
    (run_sched 60 (fun c => c == 0) 3).trace.map Prod.snd =
      [Call.unregisterCall] ∧
    (run_sched 60 (fun c => c == 0) 3).raised = true := by
  refine ⟨rfl, rfl, rfl⟩

/-- C4 counterexample: the very first action `run_sched` performs on the
responder is an `unregister`, not the claimed initial `register`. -/
theorem run_sched_first_action_cex :
    ((run_sched 60 (fun _ => false) 1).trace.map Prod.snd).head? =
      some Call.unregisterCall ∧
    Call.unregisterCall ≠ Call.registerCall := by
  exact ⟨rfl, by decide⟩

/-- C4 (amended): `run_sched` queues `_sched_handler` with a 1-second delay
(the sole initial event is due at absolute time 1), and when it fires its
first responder action is `unregister`, immediately followed by `register`:
the initial `register` happens at 1 second after start but is preceded by an
`unregister`. -/
theorem run_sched_initial_actions (t : ℚ) (n : Nat) (hn : 1 ≤ n) :
    (run_sched t (fun _ => false) n).trace.take 2 =
      [((1 : ℚ), Call.unregisterCall), ((1 : ℚ), Call.registerCall)] ∧
    (enter 1 0 initState).queue = [⟨1, 0⟩] := by
  have hmax : max (0 : ℚ) (0 + 1) = 1 := by
    rw [max_eq_right (by norm_num : (0 : ℚ) ≤ 0 + 1)]; norm_num
  constructor
  · obtain ⟨m, rfl⟩ : ∃ m, n = m + 1 := ⟨n - 1, by omega⟩
    have h1 : run_sched t (fun _ => false) (m + 1) =
        schedRun t (fun _ => false) m
          { now := (1 : ℚ), queue := [⟨1 + t, 1⟩],
            trace := [((1 : ℚ), Call.unregisterCall),
                      ((1 : ℚ), Call.registerCall)],
            calls := 2, raised := false } := by
      simp [run_sched, schedRun, enter, initState, popMin_singleton, schedHandler,
        unregister, register, hmax]
    obtain ⟨tl, htl⟩ := schedRun_trace_mono t (fun _ => false) m
      { now := (1 : ℚ), queue := [⟨1 + t, 1⟩],
        trace := [((1 : ℚ), Call.unregisterCall), ((1 : ℚ), Call.registerCall)],
        calls := 2, raised := false }
    rw [h1, htl]
    rfl
  · simp [enter, initState]

/-- Witness for `run_sched_initial_actions` at timeout 60 and one unit of
fuel. -/
theorem run_sched_initial_actions_w :
    1 ≤ 1 ∧
    ((run_sched 60 (fun _ => false) 1).trace.take 2 =
        [((1 : ℚ), Call.unregisterCall), ((1 : ℚ), Call.registerCall)] ∧
      (enter 1 0 initState).queue = [⟨1, 0⟩]) :=
  ⟨le_refl 1, run_sched_initial_actions 60 1 (le_refl 1)⟩

/-- C2 (amended): `MDNSManager.close` only performs a `zeroconf.close()`
call: it leaves the scheduler queue — including any pending refresh event —
untouched, and each further invocation repeats the `zeroconf.close()` call
(idempotence, if any, lives in the zeroconf library, not in this method). -/
theorem close_effect (s : RunState) :
    (MDNSManager.close s).queue = s.queue ∧
    (MDNSManager.close s).trace = s.trace ++ [(s.now, Call.closeCall)] ∧
    (MDNSManager.close (MDNSManager.close s)).trace =
      s.trace ++ [(s.now, Call.closeCall), (s.now, Call.closeCall)] := by
  refine ⟨rfl, rfl, ?_⟩
  simp [MDNSManager.close]

/-- C2 counterexample: after one refresh cycle, calling `close` leaves the
pending refresh event in the queue (nothing is cancelled), and letting the
scheduler continue produces further unregister/register calls after the
close, contradicting "stop() cancels any pending scheduled refresh" and
"after stop() no further register or unregister calls occur". -/
theorem close_leaves_pending_cex :
    (MDNSManager.close (run_sched 5 (fun _ => false) 1)).queue ≠ [] ∧
    (schedRun 5 (fun _ => false) 1
        (MDNSManager.close (run_sched 5 (fun _ => false) 1))).trace.map Prod.snd =
      [Call.unregisterCall, Call.registerCall, Call.closeCall,
       Call.unregisterCall, Call.registerCall] := by
  constructor
  · decide
  · rfl

/-- C6 (amended): when the file's text is invalid JSON, or parses to a value
that makes `MDNSConfig(**...)` raise `TypeError` (a non-object, or an object
with an unknown key), `load_config` returns the all-default configuration
with a warning and without raising; an object with only declared keys is
accepted with its field values taken verbatim, even when ill-typed. -/
theorem load_config_error_defaults (content : Option Json)
    (h : content = none ∨
      ∃ j, content = some j ∧ applyKwargs j = Except.error ()) :
    (load_config (some content)).config = ({} : MDNSConfig) ∧
    (load_config (some content)).warned = true := by
  rcases h with rfl | ⟨j, rfl, hj⟩
  · exact ⟨rfl, rfl⟩
  · simp [load_config, hj]

/-- Witness for `load_config_error_defaults`: a file whose text fails
`json.loads`. -/
theorem load_config_error_defaults_w :
    ((none : Option Json) = none ∨
      ∃ j, (none : Option Json) = some j ∧ applyKwargs j = Except.error ()) ∧
    ((load_config (some none)).config = ({} : MDNSConfig) ∧
     (load_config (some none)).warned = true) :=
  ⟨Or.inl rfl, load_config_error_defaults none (Or.inl rfl)⟩

/-- C6 counterexample: a file whose JSON object gives `port` a string —
contents not of the expected shape — is accepted verbatim: `load_config`
returns `port = "x"`, not the all-default configuration, and emits no
warning. -/
theorem load_config_shape_cex :
    (load_config (some (some (Json.obj [("port", Json.str "x")])))).config.port =
      Json.str "x" ∧
    (load_config (some (some (Json.obj [("port", Json.str "x")])))).warned =
      false ∧
    Json.str "x" ≠ Json.num 8080 := by
  refine ⟨rfl, rfl, fun h => Json.noConfusion h⟩

/-- C7: when the config's `name` is the (string) empty value the advertised
instance name is the resolved hostname, and the literal configured value
otherwise; the full registered name is that name, a dot, and the service
type. -/
theorem registered_name_spec (c : MDNSConfig) (hostname s t : String)
    (hn : c.name = Json.str s) (ht : c.type = Json.str t) :
    registeredName c hostname = (if s = "" then hostname else s) ++ "." ++ t := by
  unfold registeredName serviceNameOf
  rw [hn, ht]
  by_cases hs : s = ""
  · subst hs
    simp [pyTruthy, pyStr]
  · simp [pyTruthy, pyStr, hs]

/-- Witness for `registered_name_spec`: the spec scenario — config
`port = 9999, timeout = 5`, hostname `box1` — yields the registered name
`box1._http._tcp.local.` and port 9999. -/
theorem registered_name_scenario :
    registeredName scenarioConfig "box1" = "box1._http._tcp.local." ∧
    scenarioConfig.port = Json.num 9999 := by
  constructor
  · have h := registered_name_spec scenarioConfig "box1" "" "_http._tcp.local."
      rfl rfl
    rw [h]
    decide
  · rfl

/-- C8 (amended): `load_config` applies no validation or clamping to
`timeout`: a configured value is returned verbatim — whatever its sign —
and the default used when the field is absent is 60. -/
theorem timeout_passthrough (q : ℚ) :
    (load_config (some (some (Json.obj [("timeout", Json.num q)])))).config.timeout =
      Json.num q ∧
    ({} : MDNSConfig).timeout = Json.num 60 :=
  ⟨rfl, rfl⟩

/-- C8 counterexample: the configured value −5 flows through `load_config`
unrejected and unclamped, so the loaded refresh interval is not strictly
positive. -/
theorem timeout_nonpositive_cex :
    (load_config (some (some (Json.obj [("timeout", Json.num (-5))])))).config.timeout =
      Json.num (-5) ∧
    ¬ (0 : ℚ) < -5 := by
  exact ⟨rfl, by norm_num⟩

/-- C9 (amended): unknown fields are not ignored — any unknown key makes
`MDNSConfig(**...)` raise `TypeError`, so `load_config` discards every parsed
value and returns the all-default configuration — while a type mismatch in a
declared field is not routed to the default-substitution path: the value is
accepted verbatim. -/
theorem config_unknown_and_verbatim (m : List (String × Json)) (k : String)
    (v : Json) (hk : (k, v) ∈ m) (hunk : knownKeys.contains k = false) :
    (load_config (some (some (Json.obj m)))).config = ({} : MDNSConfig) ∧
    ∀ w : Json,
      (load_config (some (some (Json.obj [("port", w)])))).config.port = w := by
  constructor
  · have hall : m.all (fun p => knownKeys.contains p.1) = false := by
      cases hall : m.all (fun p => knownKeys.contains p.1) with
      | false => rfl
      | true =>
          have h2 := List.all_eq_true.mp hall (k, v) hk
          have h3 : k ∈ knownKeys := by simpa using h2
          have h4 : k ∉ knownKeys := by simpa using hunk
          exact absurd h3 h4
    have herr : applyKwargs (Json.obj m) = Except.error () := by
      show mkMDNSConfig m = Except.error ()
      unfold mkMDNSConfig
      rw [hall]
      rfl
    simp only [load_config]
    cases hc : applyKwargs (Json.obj m) with
    | ok c =>
        rw [hc] at herr
        exact Except.noConfusion herr
    | error e => rfl
  · intro w
    rfl

/-- Witness for `config_unknown_and_verbatim`: the object
`port = 9999, extra = 1` has the unknown key `extra`, and loading it yields
the all-default configuration. -/
theorem config_unknown_and_verbatim_w :
    (("extra", Json.num 1) ∈ [("port", Json.num 9999), ("extra", Json.num 1)]) ∧
    knownKeys.contains "extra" = false ∧
    (load_config (some (some (Json.obj
        [("port", Json.num 9999), ("extra", Json.num 1)])))).config =
      ({} : MDNSConfig) :=
  ⟨List.Mem.tail _ (List.Mem.head _), rfl,
    (config_unknown_and_verbatim _ "extra" (Json.num 1)
      (List.Mem.tail _ (List.Mem.head _)) rfl).1⟩

/-- C9 counterexample: the object `port = 9999, extra = 1` loads with
`port = 8080` — the unknown field was not ignored and the declared field lost
its parsed value — and the object `port = "oops"` loads with the mismatched
value accepted verbatim rather than defaulted. -/
theorem config_fields_cex :
    (load_config (some (some (Json.obj
        [("port", Json.num 9999), ("extra", Json.num 1)])))).config.port =
      Json.num 8080 ∧
    Json.num 8080 ≠ Json.num 9999 ∧
    (load_config (some (some (Json.obj [("port", Json.str "oops")])))).config.port =
      Json.str "oops" := by
  refine ⟨rfl, ?_, rfl⟩
  intro h
  injection h with h2
  exact absurd h2 (by norm_num)
